import Mathlib

/-!
Verification of the Allhallowtide 2021 badge firmware core against its
natural-language specification.

The development shallowly embeds the two components the claims are about:

* the HT16D35A LED controller driver (`ht16d35a.c` / `ht16d35a.h`): an
  in-memory framebuffer `ht16d_gs_values`, the column/row address map
  `ht16d_col_mapping`, and the command-frame transmission functions.
  Bus transmission is modelled as appending the transmitted byte frame to a
  `trace`; out-of-bounds C array reads are modelled by an explicit `Mem`
  environment holding the (unspecified) adjacent memory an out-of-bounds
  read would return, and, separately, by an Option-returning total model.

* the RTC tick interrupt (`rtc.c` `RTC_ISR`), the CapTIvate button callback
  (`main.c` `button_cb`) and the main dispatcher loop body (`main.c` `main`),
  embedded as step functions on an explicit `SysState` record.  Blocks of
  the dispatcher that are commented out in the source (long-press, serial,
  thermal) are omitted, exactly as the compiler would omit them.

Machine integers are embedded as `Nat` with explicit `% 2 ^ w` where the
source can overflow (`rtc_centiseconds` is `uint8_t`, `rtc_seconds` is
`uint32_t`, stored channel bytes are `uint8_t`).
-/

namespace Allhallowtide

/-! ## Display driver model (ht16d35a.c) -/

/-- `HT16D_LED_COUNT`: the number of RGB (3-channel) LEDs in the system. -/
def HT16D_LED_COUNT : Nat := 9

/-- `HT16D_BRIGHTNESS_DEFAULT` from ht16d35a.h. -/
def HT16D_BRIGHTNESS_DEFAULT : Nat := 0x30

/-- `HT16D_BRIGHTNESS_MIN` from ht16d35a.h. -/
def HT16D_BRIGHTNESS_MIN : Nat := 0x01

/-- `HT16D_BRIGHTNESS_MAX` from ht16d35a.h. -/
def HT16D_BRIGHTNESS_MAX : Nat := 0x40

/-- `HTCMD_WRITE_DISPLAY`: write the buffer that follows to display memory. -/
def HTCMD_WRITE_DISPLAY : Nat := 0x80

/-- `HTCMD_GLOBAL_BRTNS`: set the global brightness. -/
def HTCMD_GLOBAL_BRTNS : Nat := 0x37

/-- `HTCMD_SYS_OSC_CTL`: system and oscillator control command. -/
def HTCMD_SYS_OSC_CTL : Nat := 0x35

/-- `HTCMD_SW_RESET`: software reset of the HT16D35B. -/
def HTCMD_SW_RESET : Nat := 0xCC

/-- `ht16d_col_mapping[0]` from ht16d35a.c: the (LED id, channel) pair for
each physical row, `HT16D_LED_COUNT*3 = 27` entries. -/
def ht16d_col_mapping : List (Nat × Nat) :=
  [(0, 2), (0, 1), (0, 0), (1, 2), (1, 1), (1, 0), (2, 2), (2, 1), (2, 0),
   (3, 2), (3, 1), (3, 0), (4, 2), (4, 1), (4, 0), (5, 2), (5, 1), (5, 0),
   (6, 2), (6, 1), (6, 0), (7, 2), (7, 1), (7, 0), (8, 2), (8, 1), (8, 0)]

/-- Unspecified memory adjacent to the driver's C arrays: the values an
out-of-bounds read of `ht16d_col_mapping` (resp. `ht16d_gs_values`) would
return.  The source never defines them, so the model is parameterized. -/
structure Mem where
  oob_map : Nat × Nat
  oob_gs : Nat
deriving Repr, DecidableEq

/-- Driver state: the framebuffer `ht16d_gs_values` (a 9-element list of
3-element channel lists, 8 bits per channel) and the trace of byte frames
transmitted so far by `ht16d_send_array` (each frame one CS-low..CS-high
bus transaction). -/
structure HtState where
  gs_values : List (List Nat)
  trace : List (List Nat)
deriving Repr, DecidableEq

/-- `ht16d_send_array(txdat, len)`: transmit one framed write.  Modelled as
appending the byte list to the bus trace. -/
def ht16d_send_array (txdat : List Nat) (s : HtState) : HtState :=
  { s with trace := s.trace ++ [txdat] }

/-- `ht16d_send_cmd_single(cmd)`. -/
def ht16d_send_cmd_single (cmd : Nat) (s : HtState) : HtState :=
  ht16d_send_array [cmd] s

/-- `ht16_d_send_cmd_dat(cmd, dat)` (name as in the source). -/
def ht16_d_send_cmd_dat (cmd dat : Nat) (s : HtState) : HtState :=
  ht16d_send_array [cmd, dat] s

/-- Read `ht16d_col_mapping[0][row]`; rows past the end of the map read the
adjacent memory `mem.oob_map`. -/
def mapRead (mem : Mem) (row : Nat) : Nat × Nat :=
  (ht16d_col_mapping.get? row).getD mem.oob_map

/-- Read `ht16d_gs_values[led][rgb]`; out-of-bounds indices read the
adjacent memory `mem.oob_gs`. -/
def gsRead (mem : Mem) (gs : List (List Nat)) (led rgb : Nat) : Nat :=
  ((gs.get? led).bind (fun r => r.get? rgb)).getD mem.oob_gs

/-- The 30-byte frame assembled by `ht16d_send_gray`: command byte
`HTCMD_WRITE_DISPLAY`, address byte `0x20*col` with `col = 0`, then for
`row = 0..27` the framebuffer value at `ht16d_col_mapping[col][row]`
right-shifted from 8 to 6 bits. -/
def sendGrayFrame (mem : Mem) (gs : List (List Nat)) : List Nat :=
  HTCMD_WRITE_DISPLAY :: 0x00 ::
    (List.range 28).map (fun row =>
      (gsRead mem gs (mapRead mem row).1 (mapRead mem row).2) >>> 2)

/-- `ht16d_send_gray()`: transmit the current framebuffer. -/
def ht16d_send_gray (mem : Mem) (s : HtState) : HtState :=
  ht16d_send_array (sendGrayFrame mem s.gs_values) s

/-- Truncating cast to `uint8_t`. -/
def u8 (x : Nat) : Nat := x % 256

/-- `ht16d_put_colors(id_start, id_len, colors)`: bounds-check against
`HT16D_LED_COUNT`, then write `(uint8_t)(colors[i].{r,g,b} >> 7)` into the
framebuffer for `i = 0..id_len-1`.  Does not transmit.  `colors` is the
caller's array of 16-bit `rgbcolor16_t` triples. -/
def ht16d_put_colors (id_start id_len : Nat) (colors : Nat → Nat × Nat × Nat)
    (s : HtState) : HtState :=
  if id_start ≥ HT16D_LED_COUNT ∨ id_start + id_len > HT16D_LED_COUNT then
    s
  else
    { s with
      gs_values :=
        (List.range id_len).foldl (fun g i =>
          g.set (id_start + i)
            [u8 ((colors i).1 >>> 7), u8 ((colors i).2.1 >>> 7),
             u8 ((colors i).2.2 >>> 7)]) s.gs_values }

/-- `ht16d_set_colors(id_start, id_len, colors)`: `ht16d_put_colors`
followed unconditionally by `ht16d_send_gray`. -/
def ht16d_set_colors (id_start id_len : Nat) (colors : Nat → Nat × Nat × Nat)
    (mem : Mem) (s : HtState) : HtState :=
  ht16d_send_gray mem (ht16d_put_colors id_start id_len colors s)

/-- `ht16d_all_one_color(r, g, b)`: set every LED's three channels, then
transmit. -/
def ht16d_all_one_color (r g b : Nat) (mem : Mem) (s : HtState) : HtState :=
  ht16d_send_gray mem
    { s with gs_values := List.replicate HT16D_LED_COUNT [r, g, b] }

/-- `ht16d_set_global_brightness(brightness)`: clamp values above
`HT16D_BRIGHTNESS_MAX` down to it (the source has no lower-bound check),
then send the two-byte brightness command. -/
def ht16d_set_global_brightness (brightness : Nat) (s : HtState) : HtState :=
  ht16_d_send_cmd_dat HTCMD_GLOBAL_BRTNS
    (if brightness > HT16D_BRIGHTNESS_MAX then HT16D_BRIGHTNESS_MAX
     else brightness) s

/-- The driver state at C startup: `ht16d_gs_values` is zero-initialized
(`= {0,}`), nothing transmitted yet. -/
def initialHtState : HtState :=
  { gs_values := List.replicate 9 (List.replicate 3 0), trace := [] }

/-- `ht16d_init()`: the exact command sequence of the source (software
reset; default brightness; grayscale mode; COM pin control; constant
current; COM count; ROW pin control; oscillator on;
`ht16d_all_one_color(128,128,128)`; oscillator and display on). -/
def ht16d_init (mem : Mem) : HtState :=
  ht16_d_send_cmd_dat HTCMD_SYS_OSC_CTL 0b11
    (ht16d_all_one_color 128 128 128 mem
      (ht16_d_send_cmd_dat HTCMD_SYS_OSC_CTL 0b10
        (ht16d_send_array [0x42, 0b01111111, 0xff, 0xff, 0xff]
          (ht16_d_send_cmd_dat 0x32 0x02
            (ht16_d_send_cmd_dat 0x36 0b0111
              (ht16_d_send_cmd_dat 0x41 0b0000001
                (ht16_d_send_cmd_dat 0x31 0x00
                  (ht16_d_send_cmd_dat HTCMD_GLOBAL_BRTNS
                    HT16D_BRIGHTNESS_DEFAULT
                    (ht16d_send_cmd_single HTCMD_SW_RESET
                      initialHtState)))))))))

/-! ### Option-returning (total) embedding of the frame assembly, for the
out-of-bounds analysis: every C array index becomes an `Option` lookup. -/

/-- One row byte of the frame, with every array access checked:
`ht16d_col_mapping[0][row]` then `ht16d_gs_values[led][rgb]`. -/
def rowByteOpt (gs : List (List Nat)) (row : Nat) : Option Nat :=
  (ht16d_col_mapping.get? row).bind fun m =>
    (gs.get? m.1).bind fun led =>
      (led.get? m.2).map fun v => v >>> 2

/-- The row bytes for a list of row indices, failing if any access is out
of bounds (rows are filled in loop order, `row = 0` first). -/
def rowsOptList (gs : List (List Nat)) : List Nat → Option (List Nat)
  | [] => some []
  | r :: rest =>
    match rowByteOpt gs r, rowsOptList gs rest with
    | some b, some bs => some (b :: bs)
    | _, _ => none

/-- The full `ht16d_send_gray` frame under the checked embedding: the row
loop runs `row = 0` to `27` as in the source. -/
def sendGrayFrameOpt (gs : List (List Nat)) : Option (List Nat) :=
  (rowsOptList gs (List.range 28)).map fun rows =>
    HTCMD_WRITE_DISPLAY :: 0x00 :: rows

/-! ## Clock and dispatcher model (rtc.c, main.c) -/

/-- The tick frequency: the RTC is configured to tick 100 times per
second. -/
def TICKS_PER_SECOND : Nat := 100

/-- The cross-context shared state of rtc.c and main.c: the RTC counters,
the captured button-hold compare value `rtc_button_csecs`, the button
state, the event flags, the CapTIvate timer flag, and a count of watchdog
re-arms (`WDTCTL` writes with `WDTCNTCL`) observed inside the loop. -/
structure SysState where
  rtc_centiseconds : Nat
  rtc_seconds : Nat
  rtc_button_csecs : Nat
  button_state : Nat
  f_time_loop : Nat
  f_second : Nat
  f_long_press : Nat
  g_bConvTimerFlag : Nat
  wdt_pets : Nat
deriving Repr, DecidableEq

/-- `RTC_ISR` from rtc.c: increment `rtc_centiseconds` (a `uint8_t`), set
`f_time_loop`, set `f_long_press` if the button is held and the counter
equals the captured `rtc_button_csecs`, and on reaching 100 set `f_second`
and reset the counter to 1. -/
def RTC_ISR (s : SysState) : SysState :=
  let c := (s.rtc_centiseconds + 1) % 256
  let s1 := { s with rtc_centiseconds := c, f_time_loop := 1 }
  let s2 :=
    if s1.button_state ≠ 0 ∧ c = s1.rtc_button_csecs then
      { s1 with f_long_press := 1 }
    else s1
  if c = 100 then { s2 with f_second := 1, rtc_centiseconds := 1 } else s2

/-- One pass of the `while(1)` dispatcher body in main.c, as compiled: if
`f_time_loop` is set, re-arm the watchdog and clear the flag; if
`f_second` is set, increment `rtc_seconds` (a `uint32_t`) and clear the
flag; if the CapTIvate timer flag is set, run its update and clear it.
The long-press, serial and thermal blocks are commented out in the source
and therefore absent. -/
def main_loop_pass (s : SysState) : SysState :=
  let s1 :=
    if s.f_time_loop ≠ 0 then
      { s with wdt_pets := s.wdt_pets + 1, f_time_loop := 0 }
    else s
  let s2 :=
    if s1.f_second ≠ 0 then
      { s1 with rtc_seconds := (s1.rtc_seconds + 1) % 2 ^ 32, f_second := 0 }
    else s1
  if s2.g_bConvTimerFlag ≠ 0 then { s2 with g_bConvTimerFlag := 0 } else s2

/-- One serviced timer interrupt: the ISR fires, then the dispatcher wakes
from LPM0 and drains the flags. -/
def tickStep (s : SysState) : SysState :=
  main_loop_pass (RTC_ISR s)

/-- The state at reset: all counters and flags zero-initialized. -/
def initSysState : SysState :=
  ⟨0, 0, 0, 0, 0, 0, 0, 0, 0⟩

/-- `k` serviced timer interrupts starting from `s`. -/
def runFrom (s : SysState) : Nat → SysState
  | 0 => s
  | k + 1 => tickStep (runFrom s k)

/-- `t` serviced timer interrupts from reset. -/
def runTicks (t : Nat) : SysState :=
  runFrom initSysState t

/-- The press-edge branch of `button_cb` in main.c: set `button_state = 1`
and capture `rtc_button_csecs = rtc_centiseconds`. -/
def press_capture (s : SysState) : SysState :=
  { s with button_state := 1, rtc_button_csecs := s.rtc_centiseconds }

/-- Modelled from the spec (§8), for comparison with the source model: the
spec's claimed clock formula, "after `t` interrupts,
`elapsed_seconds == t / TICKS_PER_SECOND` and
`subsecond_ticks == 1 + (t mod TICKS_PER_SECOND)` when
`t mod TICKS_PER_SECOND != 0`, else `TICKS_PER_SECOND`". -/
abbrev specClockFormula (t : Nat) : Prop :=
  (runTicks t).rtc_seconds = t / TICKS_PER_SECOND ∧
  (t % TICKS_PER_SECOND ≠ 0 →
    (runTicks t).rtc_centiseconds = 1 + t % TICKS_PER_SECOND) ∧
  (t % TICKS_PER_SECOND = 0 →
    (runTicks t).rtc_centiseconds = TICKS_PER_SECOND)

/-- State used by concrete counterexamples and witnesses: adjacent memory
that reads as the pair `(9, 0)` after `ht16d_col_mapping` and as `0` after
`ht16d_gs_values`. -/
def memCex : Mem := ⟨(9, 0), 0⟩

/-- An all-white 16-bit color array: every channel of every entry is
`0xFFFF`. -/
def whiteColors : Nat → Nat × Nat × Nat := fun _ => (0xFFFF, 0xFFFF, 0xFFFF)

/-! ## Theorems -/

lemma ht16d_put_colors_trace (id_start id_len : Nat)
    (colors : Nat → Nat × Nat × Nat) (s : HtState) :
    (ht16d_put_colors id_start id_len colors s).trace = s.trace := by
  unfold ht16d_put_colors
  split <;> rfl

lemma ht16d_put_colors_oob (id_start id_len : Nat)
    (colors : Nat → Nat × Nat × Nat) (s : HtState)
    (h : id_start ≥ HT16D_LED_COUNT ∨ id_start + id_len > HT16D_LED_COUNT) :
    ht16d_put_colors id_start id_len colors s = s := by
  unfold ht16d_put_colors
  rw [if_pos h]

/-- Claim C4: a call `ht16d_put_colors(start, len, colors)` with
`start >= led_count` or `start + len > led_count` leaves the framebuffer
completely unchanged and performs no bus transmission, and an in-range
call writes only the framebuffer and never transmits (the bus trace is
unchanged by every call). -/
theorem put_colors_safe_noop (id_start id_len : Nat)
    (colors : Nat → Nat × Nat × Nat) (s : HtState) :
    (ht16d_put_colors id_start id_len colors s).trace = s.trace ∧
    (id_start ≥ HT16D_LED_COUNT ∨ id_start + id_len > HT16D_LED_COUNT →
      ht16d_put_colors id_start id_len colors s = s) :=
  ⟨ht16d_put_colors_trace id_start id_len colors s,
   fun h => ht16d_put_colors_oob id_start id_len colors s h⟩

/-- Witness for C4 at the concrete out-of-range call
`ht16d_put_colors(9, 1, ...)`: the state is returned untouched. -/
theorem put_colors_safe_noop_witness :
    ht16d_put_colors 9 1 (fun _ => (0, 0, 0)) initialHtState =
      initialHtState :=
  (put_colors_safe_noop 9 1 (fun _ => (0, 0, 0)) initialHtState).2
    (Or.inl (by decide))

/-- Claim C8: `ht16d_send_gray` is deterministic in the framebuffer:
called twice with no intervening mutation it transmits two bit-identical
frames, and it leaves the framebuffer unchanged. -/
theorem send_gray_deterministic (mem : Mem) (s : HtState) :
    (ht16d_send_gray mem (ht16d_send_gray mem s)).gs_values = s.gs_values ∧
    (ht16d_send_gray mem (ht16d_send_gray mem s)).trace =
      s.trace ++ [sendGrayFrame mem s.gs_values,
                  sendGrayFrame mem s.gs_values] := by
  simp [ht16d_send_gray, ht16d_send_array]

lemma rowsOptList_eq_none (gs : List (List Nat)) (l : List Nat) (r : Nat)
    (hr : r ∈ l) (h : rowByteOpt gs r = none) : rowsOptList gs l = none := by
  induction l with
  | nil => cases hr
  | cons a t ih =>
    rcases List.mem_cons.mp hr with rfl | h2
    · simp only [rowsOptList, h]
    · simp only [rowsOptList, ih h2]
      cases rowByteOpt gs a <;> rfl

/-- Claim C9: the row loop of `ht16d_send_gray` iterates `row = 0..27`
(28 rows) while `ht16d_col_mapping` has only `HT16D_LED_COUNT*3 = 27`
entries, so under the total Option-returning embedding of indexing the
out-of-bounds branch is hit on every transmission, whatever the
framebuffer holds. -/
theorem send_gray_row_loop_oob (gs : List (List Nat)) :
    sendGrayFrameOpt gs = none := by
  have h27 : rowByteOpt gs 27 = none := rfl
  have hall : rowsOptList gs (List.range 28) = none :=
    rowsOptList_eq_none gs (List.range 28) 27 (by decide) h27
  unfold sendGrayFrameOpt
  rw [hall]
  rfl

/-- Claim C10: an out-of-range `ht16d_set_colors(start, len, colors)` call
skips the framebuffer write but still transmits a full frame of the
unchanged framebuffer: the safe no-op covers only the framebuffer, not
the transmission. -/
theorem set_colors_oob_still_transmits (id_start id_len : Nat)
    (colors : Nat → Nat × Nat × Nat) (mem : Mem) (s : HtState)
    (h : id_start ≥ HT16D_LED_COUNT ∨ id_start + id_len > HT16D_LED_COUNT) :
    (ht16d_set_colors id_start id_len colors mem s).gs_values =
      s.gs_values ∧
    (ht16d_set_colors id_start id_len colors mem s).trace =
      s.trace ++ [sendGrayFrame mem s.gs_values] := by
  unfold ht16d_set_colors
  rw [ht16d_put_colors_oob id_start id_len colors s h]
  exact ⟨rfl, rfl⟩

/-- Witness for C10: the concrete out-of-range call
`ht16d_set_colors(0, 10, ...)` from the startup state still pushes one
frame of the untouched all-zero framebuffer onto the bus. -/
theorem set_colors_oob_still_transmits_witness :
    (ht16d_set_colors 0 10 (fun _ => (0, 0, 0)) memCex
        initialHtState).trace =
      [sendGrayFrame memCex initialHtState.gs_values] := by
  have h :=
    set_colors_oob_still_transmits 0 10 (fun _ => (0, 0, 0)) memCex
      initialHtState (Or.inr (by decide))
  rw [h.2]
  rfl

/-- Claim C3 counterexample: `ht16d_set_global_brightness(0x00)` transmits
the value `0x00` unchanged, not `HT16D_BRIGHTNESS_MIN = 0x01` — the
source clamps only the upper bound. -/
theorem brightness_min_not_enforced_cex :
    (ht16d_set_global_brightness 0x00 initialHtState).trace =
      [[0x37, 0x00]] ∧ (0x00 : Nat) ≠ HT16D_BRIGHTNESS_MIN := by
  decide

/-- Claim C3 (amended): `ht16d_set_global_brightness(v)` never rejects a
call and transmits `min v HT16D_BRIGHTNESS_MAX` — values above `MAX`
(such as `0xFF`) clamp to `MAX = 0x40`, but values below
`HT16D_BRIGHTNESS_MIN` pass through unchanged. -/
theorem brightness_upper_clamp_only (v : Nat) (s : HtState) :
    (ht16d_set_global_brightness v s).gs_values = s.gs_values ∧
    (ht16d_set_global_brightness v s).trace =
      s.trace ++ [[HTCMD_GLOBAL_BRTNS, min v HT16D_BRIGHTNESS_MAX]] := by
  unfold ht16d_set_global_brightness ht16_d_send_cmd_dat ht16d_send_array
  refine ⟨rfl, ?_⟩
  have hmin : (if v > HT16D_BRIGHTNESS_MAX then HT16D_BRIGHTNESS_MAX else v) =
      min v HT16D_BRIGHTNESS_MAX := by
    unfold HT16D_BRIGHTNESS_MAX
    split <;> omega
  rw [hmin]

lemma rowByte_agrees (mem : Mem) (gs : List (List Nat)) (r b : Nat)
    (h : rowByteOpt gs r = some b) :
    (gsRead mem gs (mapRead mem r).1 (mapRead mem r).2) >>> 2 = b := by
  unfold rowByteOpt at h
  rcases Option.bind_eq_some.mp h with ⟨m, hm, h2⟩
  rcases Option.bind_eq_some.mp h2 with ⟨chans, hg1, h3⟩
  rcases Option.map_eq_some'.mp h3 with ⟨v, hg2, rfl⟩
  unfold mapRead
  rw [hm, Option.getD_some]
  unfold gsRead
  rw [hg1, Option.some_bind, hg2, Option.getD_some]

lemma map_rows_eq (mem : Mem) (gs : List (List Nat)) :
    ∀ (l : List Nat) (bs : List Nat), rowsOptList gs l = some bs →
      l.map (fun row =>
        (gsRead mem gs (mapRead mem row).1 (mapRead mem row).2) >>> 2) =
        bs := by
  intro l
  induction l with
  | nil =>
    intro bs h
    simp only [rowsOptList] at h
    simp [← Option.some.inj h]
  | cons r rest ih =>
    intro bs h
    simp only [rowsOptList] at h
    cases hb : rowByteOpt gs r with
    | none =>
      rw [hb] at h
      cases hx : rowsOptList gs rest <;> rw [hx] at h <;>
        exact absurd h (by simp)
    | some b =>
      cases hx : rowsOptList gs rest with
      | none => rw [hb, hx] at h; exact absurd h (by simp)
      | some bs' =>
        rw [hb, hx] at h
        have hbs : b :: bs' = bs := Option.some.inj h
        subst hbs
        simp only [List.map_cons]
        rw [rowByte_agrees mem gs r b hb, ih bs' hx]

lemma sendGrayFrame_take_29 (mem : Mem) (gs : List (List Nat)) (bs : List Nat)
    (h : rowsOptList gs (List.range 27) = some bs) :
    (sendGrayFrame mem gs).take 29 = HTCMD_WRITE_DISPLAY :: 0x00 :: bs := by
  unfold sendGrayFrame
  rw [List.take_succ_cons, List.take_succ_cons, ← List.map_take,
    List.take_range]
  have h27 : (27 : Nat) ⊓ 28 = 27 := by norm_num
  rw [h27]
  rw [map_rows_eq mem gs (List.range 27) bs h]

/-- Claim C5: evaluation of `ht16d_init` at its failing input (the
power-on state).  The init sequence's framebuffer-clearing call is
`ht16d_all_one_color(128, 128, 128)` — commented "Turn off all the LEDs"
— so after init the framebuffer holds 128 in every channel (not 0), and
the one framebuffer frame transmitted before the display-on command (the
9th of the 10 init frames) carries 32 = 128 >> 2 (not 0) in every mapped
row byte: the LEDs are left at half gray, not off. -/
theorem init_leaves_leds_at_half_gray (mem : Mem) :
    (ht16d_init mem).gs_values = List.replicate 9 [128, 128, 128] ∧
    (ht16d_init mem).trace.get? 8 =
      some (sendGrayFrame mem (List.replicate 9 [128, 128, 128])) ∧
    (sendGrayFrame mem (List.replicate 9 [128, 128, 128])).take 29 =
      HTCMD_WRITE_DISPLAY :: 0x00 :: List.replicate 27 32 ∧
    (32 : Nat) ≠ 0 := by
  refine ⟨rfl, rfl, ?_, by decide⟩
  exact sendGrayFrame_take_29 mem (List.replicate 9 [128, 128, 128])
    (List.replicate 27 32) (by decide)

/-- Claim C7 counterexample: with the adjacent memory `memCex` (the map's
out-of-bounds row 27 reading as `(9, 0)` and the framebuffer's
out-of-bounds reads as 0), the frame transmitted by
`ht16d_set_colors(0, 9, all-white)` after init has 27 row bytes equal to
63 = 0x3F but a final row byte equal to 0 — so the claim that the row
payload bytes are ALL the 6-bit-shifted white value is false. -/
theorem white_frame_last_byte_cex :
    (ht16d_set_colors 0 9 whiteColors memCex
        (ht16d_init memCex)).trace.getLast? =
      some (HTCMD_WRITE_DISPLAY :: 0x00 ::
        (List.replicate 27 63 ++ [0])) ∧ (0 : Nat) ≠ 63 := by
  decide

/-- Claim C7 (amended): after init with 9 LEDs,
`ht16d_set_colors(0, 9, all-white-16-bit)` transmits a 30-byte frame
whose command byte is `HTCMD_WRITE_DISPLAY = 0x80`, whose address byte is
0, and whose 27 mapped row bytes all equal the 6-bit-shifted white value
63 = 0x3F; the 28th row byte is produced by the out-of-bounds map read of
row 27 and depends on unspecified adjacent memory. -/
theorem white_frame_mapped_bytes (mem : Mem) :
    (ht16d_set_colors 0 9 whiteColors mem
        (ht16d_init mem)).trace.getLast? =
      some (sendGrayFrame mem (List.replicate 9 [255, 255, 255])) ∧
    (sendGrayFrame mem (List.replicate 9 [255, 255, 255])).take 29 =
      HTCMD_WRITE_DISPLAY :: 0x00 :: List.replicate 27 63 ∧
    (sendGrayFrame mem (List.replicate 9 [255, 255, 255])).length = 30 := by
  refine ⟨rfl, ?_, ?_⟩
  · exact sendGrayFrame_take_29 mem (List.replicate 9 [255, 255, 255])
      (List.replicate 27 63) (by decide)
  · simp [sendGrayFrame]

lemma tickStep_idle (c sec pets : Nat) (hc : c ≤ 99) :
    tickStep ⟨c, sec, 0, 0, 0, 0, 0, 0, pets⟩ =
      if c + 1 = 100 then
        ⟨1, (sec + 1) % 2 ^ 32, 0, 0, 0, 0, 0, 0, pets + 1⟩
      else
        ⟨c + 1, sec, 0, 0, 0, 0, 0, 0, pets + 1⟩ := by
  have h256 : (c + 1) % 256 = c + 1 := Nat.mod_eq_of_lt (by omega)
  unfold tickStep RTC_ISR main_loop_pass
  by_cases hw : c + 1 = 100 <;> simp [h256, hw]

lemma runFrom_init_eq (t : Nat) :
    runFrom initSysState t =
      ⟨if t = 0 then 0 else 1 + (t - 1) % 99, ((t - 1) / 99) % 2 ^ 32,
       0, 0, 0, 0, 0, 0, t⟩ := by
  induction t with
  | zero => rfl
  | succ n ih =>
    rw [runFrom, ih]
    by_cases hn : n = 0
    · subst hn; decide
    · rw [if_neg hn, tickStep_idle (1 + (n - 1) % 99) (((n - 1) / 99) % 2 ^ 32)
        n (by omega)]
      have hmod : (n - 1) % 99 < 99 := Nat.mod_lt _ (by omega)
      by_cases hw : 1 + (n - 1) % 99 + 1 = 100
      · rw [if_pos hw]
        simp only [Nat.succ_ne_zero, if_false, Nat.add_sub_cancel,
          SysState.mk.injEq, and_true, true_and, eq_self_iff_true]
        have h2 : n / 99 = (n - 1) / 99 + 1 := by omega
        exact ⟨by omega, by omega⟩
      · rw [if_neg hw]
        simp only [Nat.succ_ne_zero, if_false, Nat.add_sub_cancel,
          SysState.mk.injEq, and_true, true_and, eq_self_iff_true]
        have h2 : n / 99 = (n - 1) / 99 := by omega
        exact ⟨by omega, by omega⟩

lemma runTicks_eq (t : Nat) :
    runTicks t =
      ⟨if t = 0 then 0 else 1 + (t - 1) % 99, ((t - 1) / 99) % 2 ^ 32,
       0, 0, 0, 0, 0, 0, t⟩ :=
  runFrom_init_eq t

/-- Claim C1 counterexample: the spec's clock formula fails on the code.
After 1 serviced interrupt `rtc_centiseconds = 1`, not `1 + (1 % 100) = 2`;
and after 199 serviced interrupts `rtc_seconds = 2`, not `199 / 100 = 1`
(the wrap from 100 to 1 makes every second after the first consist of
only 99 ticks). -/
theorem clock_formula_cex : ¬ specClockFormula 1 ∧ ¬ specClockFormula 199 := by
  constructor
  · intro h
    have h2 := h.2.1 (by decide)
    rw [runTicks_eq] at h2
    simp [TICKS_PER_SECOND] at h2
  · intro h
    have h1 := h.1
    rw [runTicks_eq] at h1
    simp [TICKS_PER_SECOND] at h1

/-- Claim C1 (amended): after `t ≥ 1` serviced timer interrupts from
reset, `rtc_centiseconds = 1 + (t - 1) % 99` and
`rtc_seconds = ((t - 1) / 99) % 2^32`: the subsecond counter increments
exactly once per interrupt but wraps from 100 to 1 inside the same
interrupt, so the seconds counter increments after the first 100 ticks
and then once every 99 ticks — not once every 100. -/
theorem clock_closed_form (t : Nat) (h : 1 ≤ t) :
    (runTicks t).rtc_centiseconds = 1 + (t - 1) % 99 ∧
    (runTicks t).rtc_seconds = ((t - 1) / 99) % 2 ^ 32 := by
  rw [runTicks_eq]
  have ht : ¬ (t = 0) := by omega
  rw [if_neg ht]
  exact ⟨rfl, rfl⟩

/-- Witness for C1 (amended) at `t = 150`: the counters equal the closed
forms. -/
theorem clock_closed_form_witness :
    (1 ≤ 150) ∧
    ((runTicks 150).rtc_centiseconds = 1 + (150 - 1) % 99 ∧
      (runTicks 150).rtc_seconds = ((150 - 1) / 99) % 2 ^ 32) :=
  ⟨by decide, clock_closed_form 150 (by decide)⟩

/-- Claim C2 counterexample: a dispatcher pass entered with only the
CapTIvate conversion-timer flag set (for example after a wake caused by
the touch scan timer) services that flag but performs no watchdog re-arm,
so the watchdog is NOT re-armed unconditionally on every pass — the
`WDTCTL` write sits inside `if (f_time_loop)`. -/
theorem wdt_pet_skipped_cex :
    (main_loop_pass ⟨0, 0, 0, 0, 0, 0, 0, 1, 0⟩).g_bConvTimerFlag = 0 ∧
    (main_loop_pass ⟨0, 0, 0, 0, 0, 0, 0, 1, 0⟩).wdt_pets = 0 := by
  decide

/-- Claim C2 (amended): on a dispatcher pass the watchdog is re-armed
exactly once if the tick flag `f_time_loop` is set at the start of the
pass, and not at all otherwise. -/
theorem wdt_pet_iff_tick_flag (s : SysState) :
    (main_loop_pass s).wdt_pets =
      s.wdt_pets + (if s.f_time_loop ≠ 0 then 1 else 0) := by
  unfold main_loop_pass
  by_cases h1 : s.f_time_loop ≠ 0 <;> by_cases h2 : s.f_second ≠ 0 <;>
    by_cases h3 : s.g_bConvTimerFlag ≠ 0 <;> simp [h1, h2, h3]

lemma tickStep_held (q : SysState) (h1 : q.button_state = 1)
    (hc : q.rtc_centiseconds ≤ 99) :
    (tickStep q).button_state = 1 ∧
    (tickStep q).rtc_button_csecs = q.rtc_button_csecs ∧
    (tickStep q).rtc_centiseconds =
      (if q.rtc_centiseconds + 1 = 100 then 1
       else q.rtc_centiseconds + 1) ∧
    (tickStep q).f_long_press =
      (if q.rtc_centiseconds + 1 = q.rtc_button_csecs then 1
       else q.f_long_press) := by
  obtain ⟨c, sec, csecs, b, ftl, fsec, flp, g, pets⟩ := q
  replace h1 : b = 1 := h1
  subst h1
  replace hc : c ≤ 99 := hc
  have h256 : (c + 1) % 256 = c + 1 := Nat.mod_eq_of_lt (by omega)
  unfold tickStep RTC_ISR main_loop_pass
  refine ⟨?_, ?_, ?_, ?_⟩ <;>
    simp only [h256, apply_ite SysState.button_state,
      apply_ite SysState.rtc_button_csecs,
      apply_ite SysState.rtc_centiseconds,
      apply_ite SysState.f_long_press, ne_eq, one_ne_zero,
      not_false_eq_true, true_and, ite_self]

lemma held_run_facts (p : SysState) (hb : p.button_state = 1)
    (hc1 : 1 ≤ p.rtc_centiseconds) (hc : p.rtc_centiseconds ≤ 99) :
    ∀ k, (runFrom p k).button_state = 1 ∧
      (runFrom p k).rtc_button_csecs = p.rtc_button_csecs ∧
      1 ≤ (runFrom p k).rtc_centiseconds ∧
      (runFrom p k).rtc_centiseconds ≤ 99 := by
  intro k
  induction k with
  | zero => exact ⟨hb, rfl, hc1, hc⟩
  | succ n ih =>
    obtain ⟨ib, ics, ic1, ic9⟩ := ih
    obtain ⟨tA, tB, tC, tD⟩ := tickStep_held (runFrom p n) ib ic9
    rw [runFrom]
    refine ⟨tA, by rw [tB, ics], ?_, ?_⟩
    · rw [tC]; split <;> omega
    · rw [tC]; split <;> omega

lemma runFrom_held_centis (p : SysState) (hb : p.button_state = 1)
    (hc1 : 1 ≤ p.rtc_centiseconds) (hc : p.rtc_centiseconds ≤ 99) :
    ∀ k, (runFrom p k).rtc_centiseconds =
      1 + (p.rtc_centiseconds - 1 + k) % 99 := by
  intro k
  induction k with
  | zero =>
    rw [runFrom]
    omega
  | succ n ih =>
    obtain ⟨ib, ics, ic1, ic9⟩ := held_run_facts p hb hc1 hc n
    obtain ⟨tA, tB, tC, tD⟩ := tickStep_held (runFrom p n) ib ic9
    rw [runFrom, tC, ih]
    split <;> omega

lemma long_press_never_fires_at_one (p : SysState) (hb : p.button_state = 1)
    (hv : p.rtc_button_csecs = 1) (hc1 : 1 ≤ p.rtc_centiseconds)
    (hc : p.rtc_centiseconds ≤ 99) (hf : p.f_long_press = 0) :
    ∀ k, (runFrom p k).f_long_press = 0 := by
  intro k
  induction k with
  | zero => exact hf
  | succ n ih =>
    obtain ⟨ib, ics, ic1, ic9⟩ := held_run_facts p hb hc1 hc n
    obtain ⟨tA, tB, tC, tD⟩ := tickStep_held (runFrom p n) ib ic9
    rw [runFrom, tD, ics, hv, if_neg (by omega)]
    exact ih

/-- Claim C6 counterexample: a press beginning at the reachable state
after 100 ticks captures threshold value 1 (the counter right after a
wrap).  On tick 99 of that press the subsecond counter again equals the
captured threshold 1, yet `f_long_press` is not set then — nor on any
tick of the press — because the ISR's comparison runs before the wrap
reset and its compared value is never 1. -/
theorem long_press_wrap_miss_cex :
    (runFrom (press_capture (runTicks 100)) 99).rtc_centiseconds =
      (press_capture (runTicks 100)).rtc_button_csecs ∧
    ∀ j, j ≤ 99 →
      (runFrom (press_capture (runTicks 100)) j).f_long_press = 0 := by
  have h100 : runTicks 100 = ⟨1, 1, 0, 0, 0, 0, 0, 0, 100⟩ := by
    rw [runTicks_eq]; decide
  constructor
  · rw [h100,
      runFrom_held_centis (press_capture ⟨1, 1, 0, 0, 0, 0, 0, 0, 100⟩) rfl
        (by decide) (by decide) 99]
    decide
  · intro j hj
    rw [h100]
    exact long_press_never_fires_at_one
      (press_capture ⟨1, 1, 0, 0, 0, 0, 0, 0, 100⟩) rfl rfl (by decide)
      (by decide) rfl j

/-- Claim C6 (amended): for a press beginning with the long-press flag
clear and the subsecond counter in `[2, 99]` (so that the captured
threshold avoids the wrap value 1), and held thereafter, `f_long_press`
is set after `k` ticks exactly when some tick `j ≤ k` left the subsecond
counter equal to the captured `rtc_button_csecs` — so the flag fires on
the tick where the counter equals the threshold, and never earlier.  A
press captured at counter value 1 (or 0) never fires. -/
theorem long_press_fires_exactly_at_threshold (s : SysState)
    (hflag : s.f_long_press = 0) (hlo : 2 ≤ s.rtc_centiseconds)
    (hhi : s.rtc_centiseconds ≤ 99) (k : Nat) :
    (runFrom (press_capture s) k).f_long_press ≠ 0 ↔
      ∃ j, 1 ≤ j ∧ j ≤ k ∧
        (runFrom (press_capture s) j).rtc_centiseconds =
          (press_capture s).rtc_button_csecs := by
  induction k with
  | zero =>
    refine iff_of_false ?_ ?_
    · rw [runFrom]
      simp [press_capture, hflag]
    · rintro ⟨j, hj1, hj2, _⟩
      omega
  | succ n ih =>
    have hb : (press_capture s).button_state = 1 := rfl
    have hc1 : 1 ≤ (press_capture s).rtc_centiseconds := by
      show 1 ≤ s.rtc_centiseconds
      omega
    have hc9 : (press_capture s).rtc_centiseconds ≤ 99 := hhi
    obtain ⟨ib, ics, ic1, ic9⟩ := held_run_facts (press_capture s) hb hc1 hc9 n
    obtain ⟨tA, tB, tC, tD⟩ :=
      tickStep_held (runFrom (press_capture s) n) ib ic9
    have hcsv : (press_capture s).rtc_button_csecs = s.rtc_centiseconds := rfl
    have hkey : ((runFrom (press_capture s) (n + 1)).rtc_centiseconds =
        (press_capture s).rtc_button_csecs) ↔
        ((runFrom (press_capture s) n).rtc_centiseconds + 1 =
          s.rtc_centiseconds) := by
      rw [runFrom, tC, hcsv]
      by_cases hw :
          (runFrom (press_capture s) n).rtc_centiseconds + 1 = 100
      · rw [if_pos hw]
        constructor <;> intro h <;> omega
      · rw [if_neg hw]
    constructor
    · intro h
      rw [runFrom, tD, ics, hcsv] at h
      by_cases hv : (runFrom (press_capture s) n).rtc_centiseconds + 1 =
          s.rtc_centiseconds
      · exact ⟨n + 1, by omega, Nat.le_refl _, hkey.mpr hv⟩
      · rw [if_neg hv] at h
        obtain ⟨j, hj1, hj2, hj3⟩ := ih.mp h
        exact ⟨j, hj1, by omega, hj3⟩
    · rintro ⟨j, hj1, hj2, hj3⟩
      rw [runFrom, tD, ics, hcsv]
      rcases Nat.eq_or_lt_of_le hj2 with heq | hlt
      · subst heq
        rw [if_pos (hkey.mp hj3)]
        exact one_ne_zero
      · have hfl := ih.mpr ⟨j, hj1, by omega, hj3⟩
        split
        · exact one_ne_zero
        · exact hfl

/-- Witness for C6 (amended): a press captured at counter value 50 fires
the long-press flag after 99 ticks (when the counter has wrapped back
around to 50). -/
theorem long_press_fires_witness :
    (runFrom (press_capture ⟨50, 0, 0, 0, 0, 0, 0, 0, 0⟩)
      99).f_long_press ≠ 0 :=
  (long_press_fires_exactly_at_threshold ⟨50, 0, 0, 0, 0, 0, 0, 0, 0⟩ rfl
      (by decide) (by decide) 99).mpr
    ⟨99, by decide, by decide, by
      rw [runFrom_held_centis (press_capture ⟨50, 0, 0, 0, 0, 0, 0, 0, 0⟩)
        rfl (by decide) (by decide) 99]
      decide⟩

end Allhallowtide
